import Mathlib

/-!
Verification of the paymaster sponsorship signing service
(`src/paymaster-service`): a shallow embedding of `signature_service.rs`
and `key_manager.rs` into Lean, with bytes modelled as `Nat` values
(each `< 256` on well-formed data) and machine integers as `Nat` with
explicit reduction modulo `2 ^ 64` / `2 ^ 256` where the Rust code
truncates.

External library primitives are embedded as follows:
* `sha3::Keccak256` is given a full executable implementation
  (`Paymaster.keccak256`, validated against the standard test vectors);
* `secp256k1`'s recoverable ECDSA signer (`sign_ecdsa_recoverable`,
  which the crate documents as deterministic RFC 6979 signing) is a
  parameter `signRec : List Nat → List Nat → List Nat × Nat` taking the
  32-byte secret key and the 32-byte digest to the 64-byte compact
  signature plus the recovery id;
* `secp256k1::Message::from_digest_slice` succeeds exactly on 32-byte
  slices (its documented contract), which the embedding reflects as a
  length test.
-/

namespace Paymaster

/-! ## Bytes, hex decoding, big/little-endian encodings -/

/-- Value of one hexadecimal digit, accepting both cases (the contract of
`hex::decode` in the `hex` crate), on the character's code point: digits
occupy 48–57, the lowercase letters a–f occupy 97–102, the uppercase
letters A–F occupy 65–70. -/
def hexVal (c : Char) : Option Nat :=
  let n := c.toNat
  if 48 ≤ n ∧ n ≤ 57 then some (n - 48)
  else if 97 ≤ n ∧ n ≤ 102 then some (n - 87)
  else if 65 ≤ n ∧ n ≤ 70 then some (n - 55)
  else none

/-- Decode a list of hex characters two at a time; fails on an odd-length
input or a non-hex character, exactly like `hex::decode`. -/
def hexPairs : List Char → Option (List Nat)
  | [] => some []
  | [_] => none
  | c1 :: c2 :: rest => do
      let h ← hexVal c1
      let l ← hexVal c2
      let r ← hexPairs rest
      pure ((16 * h + l) :: r)

/-- `hex::decode` on a string. -/
def hexDecode (s : String) : Option (List Nat) :=
  hexPairs s.toList

/-- `s.strip_prefix("0x").unwrap_or(s)`, on the character list. -/
def strip0x : List Char → List Char
  | '0' :: 'x' :: rest => rest
  | cs => cs

/-- `SignatureService::decode_hex`: strip an optional leading `0x`, then
`hex::decode(..).unwrap_or_default()` — a malformed hex string silently
becomes the empty byte vector. -/
def decode_hex (s : String) : List Nat :=
  (hexPairs (strip0x s.toList)).getD []

/-- Big-endian encoding of `n` into `w` bytes (the value encoded is
`n % 2 ^ (8 * w)`, matching Rust's `to_be_bytes` on a truncated value). -/
def beBytes : Nat → Nat → List Nat
  | 0, _ => []
  | w + 1, n => beBytes w (n / 256) ++ [n % 256]

/-- Little-endian encoding of `n` into `w` bytes. -/
def leBytes : Nat → Nat → List Nat
  | 0, _ => []
  | w + 1, n => n % 256 :: leBytes w (n / 256)

/-- Little-endian value of a byte list (used to load keccak lanes). -/
def leVal (bs : List Nat) : Nat :=
  bs.foldr (fun b acc => b + 256 * acc) 0

/-- Big-endian value of a byte list. -/
def beVal (bs : List Nat) : Nat :=
  bs.foldl (fun acc b => acc * 256 + b) 0

theorem beBytes_length (w n : Nat) : (beBytes w n).length = w := by
  induction w generalizing n with
  | zero => rfl
  | succ w ih => simp [beBytes, ih]

theorem leBytes_length (w n : Nat) : (leBytes w n).length = w := by
  induction w generalizing n with
  | zero => rfl
  | succ w ih => simp [leBytes, ih]

theorem beBytes_zero (w : Nat) : beBytes w 0 = List.replicate w 0 := by
  induction w with
  | zero => rfl
  | succ w ih => simp [beBytes, ih, List.replicate_succ' w 0]

theorem beBytes_add (w1 w2 n : Nat) :
    beBytes (w2 + w1) n = beBytes w2 (n / 256 ^ w1) ++ beBytes w1 n := by
  induction w1 generalizing n with
  | zero => simp [beBytes]
  | succ w ih =>
      show beBytes (w2 + w) (n / 256) ++ [n % 256] = _
      rw [ih (n / 256)]
      simp [beBytes, Nat.div_div_eq_div_mul, Nat.pow_succ, Nat.mul_comm]

/-- A `u64` value right-aligned in a 32-byte word is just its 32-byte
big-endian encoding. -/
theorem replicate_append_beBytes (n : Nat) (h : n < 2 ^ 64) :
    List.replicate 24 0 ++ beBytes 8 n = beBytes 32 n := by
  have h0 : n / 256 ^ 8 = 0 := Nat.div_eq_of_lt (by norm_num at h ⊢; omega)
  have := beBytes_add 8 24 n
  rw [this, h0, beBytes_zero]

/-! ## Keccak-256 (the `sha3` crate's `Keccak256`)

Executable implementation of the keccak-f[1600] sponge with rate 136 and
the original keccak padding (domain byte `0x01`), i.e. Ethereum's
keccak256. The state is a list of 25 lanes, lane `i = x + 5 * y`, each a
`Nat` below `2 ^ 64`; lanes are loaded and emitted little-endian. -/

/-- 64-bit rotate left. -/
def rotl64 (x n : Nat) : Nat :=
  ((x <<< n) ||| (x >>> (64 - n))) % 2 ^ 64

/-- Lane/offset pairs of the rho step, generated by the standard
recurrence: starting from `(x, y) = (1, 0)`, step `t` assigns lane
`(x, y)` the offset `(t + 1)(t + 2)/2 mod 64` and moves to
`(y, (2x + 3y) mod 5)`. -/
def rhoPairs : List (Nat × Nat) :=
  ((List.range 24).foldl
    (fun st t =>
      let x := st.1.1
      let y := st.1.2
      ((y, (2 * x + 3 * y) % 5),
        (x + 5 * y, (t + 1) * (t + 2) / 2 % 64) :: st.2))
    ((1, 0), ([] : List (Nat × Nat)))).2

/-- Rotation offset of the rho step for lane `i = x + 5 * y` (lane 0
rotates by 0). -/
def rhoOff (i : Nat) : Nat :=
  (rhoPairs.lookup i).getD 0

/-- One step of the degree-8 LFSR (taps 8, 6, 5, 4) generating the iota
round-constant bits. -/
def rcNext (r : Nat) : Nat :=
  let s := 2 * r
  if s < 256 then s else s % 256 ^^^ 0x71

/-- Round constant of iota round `i`: LFSR bit `rc(7 i + j)` lands at bit
position `2 ^ j - 1` of the 64-bit lane. -/
def iotaRC (i : Nat) : Nat :=
  (List.range 7).foldl
    (fun acc j => acc + rcNext^[7 * i + j] 1 % 2 * 2 ^ (2 ^ j - 1)) 0

/-- Lane `i` of a state (0 when out of range). -/
def lane (s : List Nat) (i : Nat) : Nat :=
  s.getD i 0

def theta (s : List Nat) : List Nat :=
  let c := fun x =>
    lane s x ^^^ lane s (x + 5) ^^^ lane s (x + 10) ^^^
      lane s (x + 15) ^^^ lane s (x + 20)
  let d := fun x => c ((x + 4) % 5) ^^^ rotl64 (c ((x + 1) % 5)) 1
  (List.range 25).map fun i => lane s i ^^^ d (i % 5)

def rhoPi (s : List Nat) : List Nat :=
  (List.range 25).map fun j =>
    let xp := j % 5
    let yp := j / 5
    let src := (xp + 3 * yp) % 5 + 5 * xp
    rotl64 (lane s src) (rhoOff src)

def chi (s : List Nat) : List Nat :=
  (List.range 25).map fun j =>
    let x := j % 5
    let y := j / 5
    lane s j ^^^
      ((0xffffffffffffffff ^^^ lane s ((x + 1) % 5 + 5 * y)) &&&
        lane s ((x + 2) % 5 + 5 * y))

def iota (round : Nat) (s : List Nat) : List Nat :=
  (lane s 0 ^^^ iotaRC round) :: s.drop 1

/-- One permutation of keccak-f[1600] (24 rounds). -/
def keccakF (s : List Nat) : List Nat :=
  (List.range 24).foldl (fun st r => iota r (chi (rhoPi (theta st)))) s

/-- keccak pad10*1 with domain byte `0x01` at rate 136 bytes. -/
def keccakPad (msg : List Nat) : List Nat :=
  let q := 136 - msg.length % 136
  if q = 1 then msg ++ [0x81]
  else msg ++ [0x01] ++ List.replicate (q - 2) 0 ++ [0x80]

/-- XOR a 136-byte block into the first 17 lanes of the state. -/
def absorbBlock (s : List Nat) (block : List Nat) : List Nat :=
  (List.range 25).map fun i =>
    if i < 17 then lane s i ^^^ leVal ((block.drop (8 * i)).take 8)
    else lane s i

/-- keccak256 of a byte list: pad, absorb every 136-byte block, emit the
first 32 bytes of the state (lanes 0–3, little-endian). -/
def keccak256 (msg : List Nat) : List Nat :=
  let padded := keccakPad msg
  let s := (List.range (padded.length / 136)).foldl
    (fun st i => keccakF (absorbBlock st ((padded.drop (136 * i)).take 136)))
    (List.replicate 25 0)
  leBytes 8 (lane s 0) ++ leBytes 8 (lane s 1) ++
    leBytes 8 (lane s 2) ++ leBytes 8 (lane s 3)

theorem keccak256_length (msg : List Nat) : (keccak256 msg).length = 32 := by
  simp [keccak256, leBytes_length]

/-! ## Data model (`signature_service.rs`) -/

/-- `PackedUserOperation` (request payload): hex-string fields as received;
`nonce` and `pre_verification_gas` are `U256` values, modelled as `Nat`
(well-formed values are `< 2 ^ 256`; the 32-byte big-endian encoding below
truncates exactly as `to_be_bytes::<32>` does). -/
structure PackedUserOperation where
  sender : String
  nonce : Nat
  init_code : String
  call_data : String
  account_gas_limits : String
  pre_verification_gas : Nat
  gas_fees : String
  paymaster_and_data : String
deriving DecidableEq

/-- `SponsorshipRequest`: `valid_until` is a `u64`, `valid_after` an
`Option<u64>`. -/
structure SponsorshipRequest where
  api_key : String
  user_operation : PackedUserOperation
  valid_until : Nat
  valid_after : Option Nat
deriving DecidableEq

/-- `SponsorshipResponse`. The Rust struct stores `signature` and
`paymaster_data` hex-encoded (`hex::encode`); the embedding keeps the
underlying byte vectors (`hex::encode` is a bijection onto even-length hex
strings, doubling the length). -/
structure SponsorshipResponse where
  signature : List Nat
  valid_until : Nat
  valid_after : Nat
  paymaster_data : List Nat
deriving DecidableEq

/-- `KeyManagerError` (`key_manager.rs`). -/
inductive KeyManagerError where
  | VerifierNotFound
  | InvalidKeyFormat
  | SigningError
deriving DecidableEq

/-- `SignatureError` (`signature_service.rs`): note there is no
encoding-related variant. -/
inductive SignatureError where
  | InvalidApiKey
  | InvalidTimestamp
  | KeyManagerError (e : KeyManagerError)
deriving DecidableEq

/-! ## KeyManager (`key_manager.rs`) -/

/-- The order of the secp256k1 group. -/
def secpOrder : Nat :=
  0xfffffffffffffffffffffffffffffffebaaedce6af48a03bbfd25e8cd0364141

/-- `secp256k1::SecretKey::from_slice`: succeeds exactly on 32-byte slices
whose big-endian value is a valid scalar (nonzero and below the group
order) — the crate's documented contract. -/
def secretKeyOfSlice (bs : List Nat) : Option (List Nat) :=
  if bs.length = 32 ∧ 0 < beVal bs ∧ beVal bs < secpOrder then some bs
  else none

/-- `KeyManager::new`: iterate over the configured `verifier_keys` map and
insert a key only when `hex::decode` (no `0x` stripping here) and
`SecretKey::from_slice` both succeed; entries that fail either step are
silently skipped, and construction itself never fails. -/
def keyManagerNew (verifier_keys : List (String × String)) :
    List (String × List Nat) :=
  verifier_keys.filterMap fun p =>
    ((hexDecode p.2).bind secretKeyOfSlice).map fun sk => (p.1, sk)

/-- Type of the embedded `secp256k1` recoverable signer
(`sign_ecdsa_recoverable` followed by `serialize_compact`): 32-byte secret
key and 32-byte digest to the 64-byte compact `r ‖ s` plus the recovery
id. The crate documents this as deterministic RFC 6979 signing, hence a
pure function. -/
abbrev SignRec := List Nat → List Nat → List Nat × Nat

/-- `KeyManager::sign_eip191_message`: look the verifier up, wrap the
message via `Message::from_digest_slice` (which fails — `SigningError` —
unless the slice is exactly 32 bytes), sign recoverably, and serialize as
`r (32) ‖ s (32) ‖ v (1)` with `v = 27 + recovery_id`. -/
def sign_eip191_message (signRec : SignRec) (keys : List (String × List Nat))
    (verifier_name : String) (message : List Nat) :
    Except KeyManagerError (List Nat) :=
  match keys.lookup verifier_name with
  | none => .error .VerifierNotFound
  | some secret_key =>
      if message.length = 32 then
        let sr := signRec secret_key message
        .ok (sr.1.take 32 ++ (sr.1.drop 32).take 32 ++ [27 + sr.2])
      else .error .SigningError

/-! ## SignatureService (`signature_service.rs`) -/

/-- The service state: accepted API keys, chain id (`u64`), paymaster
address bytes, and the key manager's key map. -/
structure SignatureService where
  api_keys : List (String × String)
  chain_id : Nat
  paymaster_address : List Nat
  keys : List (String × List Nat)

/-- `SignatureService::pack_for_paymaster`. Returns `none` exactly where
the Rust code panics: the slice assignment
`gas_limits_32[32 - gas_limits.len()..].copy_from_slice(..)` underflows
`32 - len` when a gas field decodes to more than 32 bytes. Fields that
decode to fewer than 32 bytes are left-padded with zeros. -/
def pack_for_paymaster (user_op : PackedUserOperation) : Option (List Nat) :=
  let init_code := decode_hex user_op.init_code
  let call_data := decode_hex user_op.call_data
  let init_code_hash := keccak256 init_code
  let call_data_hash := keccak256 call_data
  let sender_bytes := decode_hex user_op.sender
  let gas_limits := decode_hex user_op.account_gas_limits
  let gas_fees := decode_hex user_op.gas_fees
  if gas_limits.length ≤ 32 ∧ gas_fees.length ≤ 32 then
    some ((List.replicate 12 0 ++ sender_bytes)
      ++ beBytes 32 user_op.nonce
      ++ init_code_hash
      ++ call_data_hash
      ++ (List.replicate (32 - gas_limits.length) 0 ++ gas_limits)
      ++ beBytes 32 user_op.pre_verification_gas
      ++ (List.replicate (32 - gas_fees.length) 0 ++ gas_fees))
  else none

/-- A `u64` written into the last 8 bytes of a zeroed 32-byte word, the
pattern `bytes[24..].copy_from_slice(&v.to_be_bytes())` used throughout
`create_paymaster_hash`. -/
def word64 (n : Nat) : List Nat :=
  List.replicate 24 0 ++ beBytes 8 n

/-- `SignatureService::create_paymaster_hash`: ABI-encode
`(bytes, uint256, address, uint64, uint64)` — offset word `5 * 32 = 160`,
chain id, address left-padded to 32 bytes, validUntil, validAfter, then
the dynamic tail (length word and packed operation, zero-padded to the
next 32-byte boundary when needed) — and keccak256 the whole buffer. -/
def create_paymaster_hash (chain_id : Nat) (paymaster_address : List Nat)
    (user_op : PackedUserOperation) (valid_until valid_after : Nat) :
    Option (List Nat) :=
  (pack_for_paymaster user_op).map fun packed_user_op =>
    let padding := 32 - packed_user_op.length % 32
    let encoded := word64 (5 * 32)
      ++ word64 chain_id
      ++ (List.replicate 12 0 ++ paymaster_address)
      ++ word64 valid_until
      ++ word64 valid_after
      ++ word64 packed_user_op.length
      ++ packed_user_op
      ++ (if padding ≠ 32 then List.replicate padding 0 else [])
    keccak256 encoded

/-- The fixed ASCII tag `"\x19Ethereum Signed Message:\n32"` (28 bytes). -/
def ethSignedTag : List Nat :=
  0x19 :: ("Ethereum Signed Message:\n32".toList.map Char.toNat)

/-- `SignatureService::create_eip191_message`: concatenate the tag and the
32-byte paymaster hash. Note it returns the 60-byte concatenation itself —
no second keccak256 is applied. -/
def create_eip191_message (hash : List Nat) : List Nat :=
  ethSignedTag ++ hash

/-- `SignatureService::encode_paymaster_data`:
`signature ‖ valid_until.to_be_bytes() ‖ valid_after.to_be_bytes()`. -/
def encode_paymaster_data (signature : List Nat)
    (valid_until valid_after : Nat) : List Nat :=
  signature ++ beBytes 8 valid_until ++ beBytes 8 valid_after

/-- `SignatureService::sign_sponsorship`. `now` is the sampled wall clock
(`chrono::Utc::now().timestamp() as u64`); the outer `Option` is `none`
exactly where the Rust code would panic (inside `pack_for_paymaster`). -/
def sign_sponsorship (signRec : SignRec) (svc : SignatureService)
    (now : Nat) (request : SponsorshipRequest) :
    Option (Except SignatureError SponsorshipResponse) :=
  if (svc.api_keys.lookup request.api_key).isNone then
    some (.error .InvalidApiKey)
  else if request.valid_until ≤ now then
    some (.error .InvalidTimestamp)
  else
    let valid_after := request.valid_after.getD 0
    (create_paymaster_hash svc.chain_id svc.paymaster_address
        request.user_operation request.valid_until valid_after).map
      fun paymaster_hash =>
        let eip191_message := create_eip191_message paymaster_hash
        match sign_eip191_message signRec svc.keys "default" eip191_message with
        | .error e => .error (.KeyManagerError e)
        | .ok signature =>
            .ok { signature := signature
                  valid_until := request.valid_until
                  valid_after := valid_after
                  paymaster_data :=
                    encode_paymaster_data signature request.valid_until
                      valid_after }

/-! ## Concrete fixtures (the repository's own test inputs) -/

/-- The user operation from `create_test_request` in the repository's
test suite. -/
def testOp : PackedUserOperation :=
  { sender := "0x1234567890123456789012345678901234567890"
    nonce := 1
    init_code := "0x"
    call_data := "0x1234"
    account_gas_limits := "0x00000000000f424000000000000f4240"
    pre_verification_gas := 21000
    gas_fees := "0x000000000077359400000000003b9aca00"
    paymaster_and_data := "0x" }

/-- The test request, with the clock fixed at `now = 1000` and
`valid_until = now + 3600`. -/
def testRequest : SponsorshipRequest :=
  { api_key := "test_key_123"
    user_operation := testOp
    valid_until := 4600
    valid_after := some 0 }

/-- The test verifier key (the scalar 1) from the repository's tests. -/
def testKeyHex : String :=
  "0000000000000000000000000000000000000000000000000000000000000001"

/-- The service configured exactly as in the repository's tests:
one API key, chain id 1, the zero paymaster address, and one verifier
key named `"default"`. -/
def testService : SignatureService :=
  { api_keys := [("test_key_123", "Test Client")]
    chain_id := 1
    paymaster_address := List.replicate 20 0
    keys := keyManagerNew [("default", testKeyHex)] }

/-- A concrete stand-in for the recoverable signer, used only to
instantiate universally quantified statements at a closed point. -/
def dummySignRec : SignRec := fun _ _ => (List.replicate 64 0, 0)

/-- A user operation whose gas fields decode to exactly 32 bytes (the
widths the specification prescribes for `account_gas_limits` and
`gas_fees`). -/
def fullOp : PackedUserOperation :=
  { testOp with
    account_gas_limits :=
      "0x00000000000000000000000000000000000000000000000000000000000f4240"
    gas_fees :=
      "0x000000000000000000000000000000000000000000000000000000003b9aca00" }

/-- A user operation whose `account_gas_limits` decodes to 33 bytes,
reaching the slice-underflow branch of `pack_for_paymaster`. -/
def bigOp : PackedUserOperation :=
  { testOp with
    account_gas_limits :=
      "0x000000000000000000000000000000000000000000000000000000000000000000" }

/-- A user operation whose `sender` is not valid hexadecimal. -/
def badHexOp : PackedUserOperation :=
  { testOp with sender := "not-hex!" }

/-- The test request carrying the malformed-hex user operation. -/
def badHexRequest : SponsorshipRequest :=
  { testRequest with user_operation := badHexOp }

/-- The test request with an API key outside the configured set (from
`test_invalid_api_key`). -/
def badKeyRequest : SponsorshipRequest :=
  { testRequest with api_key := "invalid_key" }

/-- A field-by-field copy of `testRequest`, written out independently. -/
def testRequestCopy : SponsorshipRequest :=
  { api_key := "test_key_123"
    user_operation :=
      { sender := "0x1234567890123456789012345678901234567890"
        nonce := 1
        init_code := "0x"
        call_data := "0x1234"
        account_gas_limits := "0x00000000000f424000000000000f4240"
        pre_verification_gas := 21000
        gas_fees := "0x000000000077359400000000003b9aca00"
        paymaster_and_data := "0x" }
    valid_until := 4600
    valid_after := some 0 }

/-- Discriminator for a completed request: did it produce a response? -/
def isOkResult : Except SignatureError SponsorshipResponse → Bool
  | .ok _ => true
  | .error _ => false

/-! ## Helper lemmas -/

theorem ethSignedTag_length : ethSignedTag.length = 28 := by decide

theorem eip191_length (pm : List Nat) (h : pm.length = 32) :
    (create_eip191_message pm).length = 60 := by
  simp [create_eip191_message, ethSignedTag_length, h]

/-- The successful branch of `pack_for_paymaster`, in closed form. -/
theorem pack_some (u : PackedUserOperation)
    (hg : (decode_hex u.account_gas_limits).length ≤ 32)
    (hf : (decode_hex u.gas_fees).length ≤ 32) :
    pack_for_paymaster u =
      some ((List.replicate 12 0 ++ decode_hex u.sender)
        ++ beBytes 32 u.nonce
        ++ keccak256 (decode_hex u.init_code)
        ++ keccak256 (decode_hex u.call_data)
        ++ (List.replicate (32 - (decode_hex u.account_gas_limits).length) 0
            ++ decode_hex u.account_gas_limits)
        ++ beBytes 32 u.pre_verification_gas
        ++ (List.replicate (32 - (decode_hex u.gas_fees).length) 0
            ++ decode_hex u.gas_fees)) := by
  simp [pack_for_paymaster, hg, hf]

/-- With a 20-byte sender, the packed operation is 224 bytes long. -/
theorem pack_length (u : PackedUserOperation)
    (hs : (decode_hex u.sender).length = 20)
    (hg : (decode_hex u.account_gas_limits).length ≤ 32)
    (hf : (decode_hex u.gas_fees).length ≤ 32) :
    (pack_for_paymaster u).map List.length = some 224 := by
  rw [pack_some u hg hf]
  simp [keccak256_length, beBytes_length, hs]
  omega

/-- The paymaster hash exists and is 32 bytes whenever packing does not
panic. -/
theorem create_paymaster_hash_some (chain_id : Nat) (addr : List Nat)
    (u : PackedUserOperation) (vu va : Nat)
    (hg : (decode_hex u.account_gas_limits).length ≤ 32)
    (hf : (decode_hex u.gas_fees).length ≤ 32) :
    ∃ pm, create_paymaster_hash chain_id addr u vu va = some pm ∧
      pm.length = 32 := by
  rw [create_paymaster_hash, pack_some u hg hf]
  exact ⟨_, rfl, keccak256_length _⟩

/-- `sign_sponsorship` after both validation checks pass: the result is
the signing step applied to the 60-byte tagged message. -/
theorem sign_sponsorship_unfold (signRec : SignRec) (svc : SignatureService)
    (now : Nat) (request : SponsorshipRequest)
    (hak : (svc.api_keys.lookup request.api_key).isNone = false)
    (ht : ¬ request.valid_until ≤ now)
    (pm : List Nat)
    (hpm : create_paymaster_hash svc.chain_id svc.paymaster_address
        request.user_operation request.valid_until
        (request.valid_after.getD 0) = some pm) :
    sign_sponsorship signRec svc now request =
      some (match sign_eip191_message signRec svc.keys "default"
            (create_eip191_message pm) with
        | .error e => .error (.KeyManagerError e)
        | .ok s' => .ok ⟨s', request.valid_until, request.valid_after.getD 0,
            encode_paymaster_data s' request.valid_until
              (request.valid_after.getD 0)⟩) := by
  simp [sign_sponsorship, hak, ht, hpm]

/-- `sign_eip191_message` depends on the key map only through the looked-up
verifier name. -/
theorem sign_eip191_lookup_congr (signRec : SignRec)
    (k1 k2 : List (String × List Nat)) (name : String) (msg : List Nat)
    (h : k1.lookup name = k2.lookup name) :
    sign_eip191_message signRec k1 name msg =
      sign_eip191_message signRec k2 name msg := by
  simp [sign_eip191_message, h]

/-- The paymaster-hash pre-image, rewritten from the code's
"zeroed word with the `u64` in its tail" idiom into 32-byte big-endian
words, with the concrete offset `160`, the concrete length `224`, and the
(empty) tail padding folded away. -/
theorem cph_eq (chain_id : Nat) (addr : List Nat) (u : PackedUserOperation)
    (vu va : Nat) (packed : List Nat)
    (hp : pack_for_paymaster u = some packed) (hlen : packed.length = 224)
    (hc : chain_id < 2 ^ 64) (hu : vu < 2 ^ 64) (hv : va < 2 ^ 64) :
    create_paymaster_hash chain_id addr u vu va =
      some (keccak256 (beBytes 32 160 ++ beBytes 32 chain_id
        ++ (List.replicate 12 0 ++ addr)
        ++ beBytes 32 vu ++ beBytes 32 va
        ++ beBytes 32 224 ++ packed)) := by
  simp only [create_paymaster_hash, hp, Option.map_some', hlen, word64,
    Nat.reduceMul, Nat.reduceMod, Nat.reduceSub, ne_eq, not_true_eq_false,
    if_false, ite_false, List.append_nil,
    replicate_append_beBytes _ hc, replicate_append_beBytes _ hu,
    replicate_append_beBytes _ hv,
    replicate_append_beBytes 160 (by norm_num),
    replicate_append_beBytes 224 (by norm_num)]

/-- One step of `KeyManager::new`: a parsable head key is inserted, an
unparsable one is skipped. -/
theorem keyManagerNew_cons (p : String × String)
    (rest : List (String × String)) :
    keyManagerNew (p :: rest) =
      ((hexDecode p.2).bind secretKeyOfSlice).elim (keyManagerNew rest)
        (fun sk => (p.1, sk) :: keyManagerNew rest) := by
  simp only [keyManagerNew, List.filterMap_cons]
  cases hp : (hexDecode p.2).bind secretKeyOfSlice <;>
    simp only [Option.map_none', Option.map_some', Option.elim]

/-! ## Claim theorems -/

/-- C2: for every user operation whose `sender` hex-decodes to exactly
20 bytes and whose `account_gas_limits` and `gas_fees` hex-decode to
exactly 32 bytes each, the packed operation is exactly the 224-byte
concatenation of seven 32-byte blocks, in order:
(12 zero bytes ‖ sender), the nonce as a 32-byte big-endian integer,
`keccak256(init_code)`, `keccak256(call_data)`, `account_gas_limits`
passed through unchanged, `pre_verification_gas` as a 32-byte big-endian
integer, and `gas_fees` passed through unchanged. -/
theorem pack_for_paymaster_seven_blocks (u : PackedUserOperation)
    (hs : (decode_hex u.sender).length = 20)
    (hg : (decode_hex u.account_gas_limits).length = 32)
    (hf : (decode_hex u.gas_fees).length = 32) :
    pack_for_paymaster u =
      some ((List.replicate 12 0 ++ decode_hex u.sender)
        ++ beBytes 32 u.nonce
        ++ keccak256 (decode_hex u.init_code)
        ++ keccak256 (decode_hex u.call_data)
        ++ decode_hex u.account_gas_limits
        ++ beBytes 32 u.pre_verification_gas
        ++ decode_hex u.gas_fees) ∧
    (pack_for_paymaster u).map List.length = some 224 := by
  constructor
  · rw [pack_some u hg.le hf.le]
    simp [hg, hf]
  · exact pack_length u hs hg.le hf.le

/-- Witness for C2 at a concrete operation with 32-byte gas fields. -/
theorem pack_for_paymaster_seven_blocks_witness :
    pack_for_paymaster fullOp =
      some ((List.replicate 12 0 ++ decode_hex fullOp.sender)
        ++ beBytes 32 fullOp.nonce
        ++ keccak256 (decode_hex fullOp.init_code)
        ++ keccak256 (decode_hex fullOp.call_data)
        ++ decode_hex fullOp.account_gas_limits
        ++ beBytes 32 fullOp.pre_verification_gas
        ++ decode_hex fullOp.gas_fees) ∧
    (pack_for_paymaster fullOp).map List.length = some 224 :=
  pack_for_paymaster_seven_blocks fullOp (by decide) (by decide) (by decide)

/-- C10: `pack_for_paymaster` completes without panicking exactly when
both `account_gas_limits` and `gas_fees` hex-decode to at most 32 bytes
(for longer fields the slice lower bound `32 - len` underflows, so the
error branch is reachable), and fields decoding to fewer than 32 bytes
are left-padded with zeros rather than rejected. -/
theorem pack_for_paymaster_totality (u : PackedUserOperation) :
    ((pack_for_paymaster u).isSome = true ↔
      (decode_hex u.account_gas_limits).length ≤ 32 ∧
        (decode_hex u.gas_fees).length ≤ 32) ∧
    ((decode_hex u.account_gas_limits).length ≤ 32 →
      (decode_hex u.gas_fees).length ≤ 32 →
      pack_for_paymaster u =
        some ((List.replicate 12 0 ++ decode_hex u.sender)
          ++ beBytes 32 u.nonce
          ++ keccak256 (decode_hex u.init_code)
          ++ keccak256 (decode_hex u.call_data)
          ++ (List.replicate (32 - (decode_hex u.account_gas_limits).length) 0
              ++ decode_hex u.account_gas_limits)
          ++ beBytes 32 u.pre_verification_gas
          ++ (List.replicate (32 - (decode_hex u.gas_fees).length) 0
              ++ decode_hex u.gas_fees))) := by
  constructor
  · by_cases h : (decode_hex u.account_gas_limits).length ≤ 32 ∧
        (decode_hex u.gas_fees).length ≤ 32
    · simp only [pack_for_paymaster]
      rw [if_pos h]
      simp [h]
    · simp only [pack_for_paymaster]
      rw [if_neg h]
      simp [h]
  · intro hg hf
    exact pack_some u hg hf

/-- Witness for C10: the repository's test operation (whose gas fields
decode to 16 bytes) is zero-padded and packed, while a 33-byte
`account_gas_limits` reaches the panic branch. -/
theorem pack_for_paymaster_totality_witness :
    pack_for_paymaster testOp =
      some ((List.replicate 12 0 ++ decode_hex testOp.sender)
        ++ beBytes 32 testOp.nonce
        ++ keccak256 (decode_hex testOp.init_code)
        ++ keccak256 (decode_hex testOp.call_data)
        ++ (List.replicate (32 - (decode_hex testOp.account_gas_limits).length) 0
            ++ decode_hex testOp.account_gas_limits)
        ++ beBytes 32 testOp.pre_verification_gas
        ++ (List.replicate (32 - (decode_hex testOp.gas_fees).length) 0
            ++ decode_hex testOp.gas_fees)) ∧
    (pack_for_paymaster bigOp).isSome = false :=
  ⟨(pack_for_paymaster_totality testOp).2 (by decide) (by decide), by
    cases hb : (pack_for_paymaster bigOp).isSome with
    | false => rfl
    | true =>
        have hc := (pack_for_paymaster_totality bigOp).1.mp hb
        exact absurd hc (by decide)⟩

/-- C3: for a request with a 20-byte sender, gas fields of at most
32 bytes, a 20-byte paymaster address and `u64`-ranged chain id and
validity bounds, the paymaster hash is keccak256 of the buffer laid out
as: a 32-byte offset word of value 160, the chain id as a 32-byte
big-endian word, the paymaster address left-padded to 32 bytes,
`valid_until` and `valid_after` each right-aligned in a 32-byte slot, a
32-byte length word of value 224 (the packed-operation length), and the
224-byte packed operation with no trailing padding. -/
theorem create_paymaster_hash_layout (chain_id : Nat) (addr : List Nat)
    (u : PackedUserOperation) (vu va : Nat)
    (hs : (decode_hex u.sender).length = 20)
    (hg : (decode_hex u.account_gas_limits).length ≤ 32)
    (hf : (decode_hex u.gas_fees).length ≤ 32)
    (ha : addr.length = 20)
    (hc : chain_id < 2 ^ 64) (hu : vu < 2 ^ 64) (hv : va < 2 ^ 64) :
    create_paymaster_hash chain_id addr u vu va =
      (pack_for_paymaster u).map (fun packed =>
        keccak256 (beBytes 32 160 ++ beBytes 32 chain_id
          ++ (List.replicate 12 0 ++ addr)
          ++ beBytes 32 vu ++ beBytes 32 va
          ++ beBytes 32 224 ++ packed)) ∧
    (pack_for_paymaster u).map List.length = some 224 ∧
    (List.replicate 12 0 ++ addr).length = 32 := by
  have hmap := pack_length u hs hg hf
  have hp := pack_some u hg hf
  have hlen : ((List.replicate 12 0 ++ decode_hex u.sender)
      ++ beBytes 32 u.nonce
      ++ keccak256 (decode_hex u.init_code)
      ++ keccak256 (decode_hex u.call_data)
      ++ (List.replicate (32 - (decode_hex u.account_gas_limits).length) 0
          ++ decode_hex u.account_gas_limits)
      ++ beBytes 32 u.pre_verification_gas
      ++ (List.replicate (32 - (decode_hex u.gas_fees).length) 0
          ++ decode_hex u.gas_fees)).length = 224 := by
    rw [hp] at hmap
    simpa using hmap
  refine ⟨?_, hmap, by simp [ha]⟩
  rw [cph_eq chain_id addr u vu va _ hp hlen hc hu hv, hp]
  rfl

/-- Witness for C3 at the repository's test configuration. -/
theorem create_paymaster_hash_layout_witness :
    create_paymaster_hash 1 (List.replicate 20 0) testOp 4600 0 =
      (pack_for_paymaster testOp).map (fun packed =>
        keccak256 (beBytes 32 160 ++ beBytes 32 1
          ++ (List.replicate 12 0 ++ List.replicate 20 0)
          ++ beBytes 32 4600 ++ beBytes 32 0
          ++ beBytes 32 224 ++ packed)) ∧
    (pack_for_paymaster testOp).map List.length = some 224 ∧
    (List.replicate 12 0 ++ List.replicate 20 (0 : Nat)).length = 32 :=
  create_paymaster_hash_layout 1 (List.replicate 20 0) testOp 4600 0
    (by decide) (by decide) (by decide) (by decide) (by decide) (by decide)
    (by decide)

/-- C4: `sign_sponsorship` rejects an API key outside the configured set
with `InvalidApiKey` (the spec's `AuthError`), and otherwise rejects
`valid_until ≤ now` with `InvalidTimestamp` (the spec's `ExpiredError`).
Both conclusions hold for every signing primitive `signRec`, every key
map and every user-operation content: the checks short-circuit before any
packing, hashing or signing, and a failed validation yields the typed
error, never a response. -/
theorem sign_sponsorship_validation_errors (signRec : SignRec)
    (svc : SignatureService) (now : Nat) (request : SponsorshipRequest) :
    ((svc.api_keys.lookup request.api_key).isNone = true →
      sign_sponsorship signRec svc now request =
        some (.error .InvalidApiKey)) ∧
    ((svc.api_keys.lookup request.api_key).isNone = false →
      request.valid_until ≤ now →
      sign_sponsorship signRec svc now request =
        some (.error .InvalidTimestamp)) := by
  constructor
  · intro h
    simp [sign_sponsorship, h]
  · intro h1 h2
    simp [sign_sponsorship, h1, h2]

/-- Witness for C4: the repository's `test_invalid_api_key` and
`test_expired_timestamp` scenarios. -/
theorem sign_sponsorship_validation_errors_witness :
    sign_sponsorship dummySignRec testService 1000 badKeyRequest =
      some (.error .InvalidApiKey) ∧
    sign_sponsorship dummySignRec testService 9999 testRequest =
      some (.error .InvalidTimestamp) :=
  ⟨(sign_sponsorship_validation_errors dummySignRec testService 1000
      badKeyRequest).1 (by decide),
   (sign_sponsorship_validation_errors dummySignRec testService 9999
      testRequest).2 (by decide) (by decide)⟩

/-- C6: signing is deterministic — two calls on field-by-field identical
requests, under the same service state and clock reading, return
identical results (in particular identical signature and paymaster_data
bytes on success). The embedded signing primitive is a pure function of
the key and digest, reflecting the RFC 6979 deterministic nonces the
`secp256k1` crate documents; no step of the pipeline consults any other
state. -/
theorem sign_sponsorship_deterministic (signRec : SignRec)
    (svc : SignatureService) (now : Nat) (r1 r2 : SponsorshipRequest)
    (hak : r1.api_key = r2.api_key)
    (hsnd : r1.user_operation.sender = r2.user_operation.sender)
    (hn : r1.user_operation.nonce = r2.user_operation.nonce)
    (hic : r1.user_operation.init_code = r2.user_operation.init_code)
    (hcd : r1.user_operation.call_data = r2.user_operation.call_data)
    (hgl : r1.user_operation.account_gas_limits =
      r2.user_operation.account_gas_limits)
    (hpv : r1.user_operation.pre_verification_gas =
      r2.user_operation.pre_verification_gas)
    (hgf : r1.user_operation.gas_fees = r2.user_operation.gas_fees)
    (hpd : r1.user_operation.paymaster_and_data =
      r2.user_operation.paymaster_and_data)
    (hvu : r1.valid_until = r2.valid_until)
    (hva : r1.valid_after = r2.valid_after) :
    sign_sponsorship signRec svc now r1 =
      sign_sponsorship signRec svc now r2 := by
  obtain ⟨a1, u1, v1, w1⟩ := r1
  obtain ⟨a2, u2, v2, w2⟩ := r2
  obtain ⟨s1, n1, i1, c1, g1, p1, f1, d1⟩ := u1
  obtain ⟨s2, n2, i2, c2, g2, p2, f2, d2⟩ := u2
  simp_all

/-- Witness for C6: two independently written copies of the test request
give the same result. -/
theorem sign_sponsorship_deterministic_witness :
    sign_sponsorship dummySignRec testService 1000 testRequest =
      sign_sponsorship dummySignRec testService 1000 testRequestCopy :=
  sign_sponsorship_deterministic dummySignRec testService 1000 testRequest
    testRequestCopy rfl rfl rfl rfl rfl rfl rfl rfl rfl rfl rfl

/-- C9: the hard-coded verifier name is `"default"`: for every validated
request, the call fails with `VerifierNotFound` exactly when no key named
`"default"` is configured (whatever other keys exist), and the outcome
depends on the key map only through the lookup of `"default"` — the
request carries no verifier selection. -/
theorem default_verifier_selection (signRec : SignRec)
    (svc : SignatureService) (now : Nat) (request : SponsorshipRequest)
    (hak : (svc.api_keys.lookup request.api_key).isNone = false)
    (ht : now < request.valid_until)
    (hg : (decode_hex request.user_operation.account_gas_limits).length ≤ 32)
    (hf : (decode_hex request.user_operation.gas_fees).length ≤ 32) :
    (sign_sponsorship signRec svc now request =
        some (.error (.KeyManagerError .VerifierNotFound)) ↔
      svc.keys.lookup "default" = none) ∧
    (∀ svc2 : SignatureService,
      svc2.api_keys = svc.api_keys →
      svc2.chain_id = svc.chain_id →
      svc2.paymaster_address = svc.paymaster_address →
      svc.keys.lookup "default" = svc2.keys.lookup "default" →
      sign_sponsorship signRec svc now request =
        sign_sponsorship signRec svc2 now request) := by
  obtain ⟨pm, hpm, hpml⟩ := create_paymaster_hash_some svc.chain_id
    svc.paymaster_address request.user_operation request.valid_until
    (request.valid_after.getD 0) hg hf
  have hnle : ¬ request.valid_until ≤ now := by omega
  have hbase := sign_sponsorship_unfold signRec svc now request hak hnle pm hpm
  have hmsg : (create_eip191_message pm).length = 60 := eip191_length pm hpml
  constructor
  · rw [hbase]
    cases hdef : svc.keys.lookup "default" with
    | none => simp [sign_eip191_message, hdef]
    | some sk => simp [sign_eip191_message, hdef, hmsg]
  · intro svc2 h1 h2 h3 hk
    have hbase2 := sign_sponsorship_unfold signRec svc2 now request
      (by rw [h1]; exact hak) hnle pm (by rw [h2, h3]; exact hpm)
    rw [hbase, hbase2, sign_eip191_lookup_congr signRec svc.keys svc2.keys
      "default" (create_eip191_message pm) hk]

/-- Witness for C9 at the test configuration (which does configure a
`"default"` key, so the call does not fail with `VerifierNotFound`). -/
theorem default_verifier_selection_witness :
    sign_sponsorship dummySignRec testService 1000 testRequest =
        some (.error (.KeyManagerError .VerifierNotFound)) ↔
      testService.keys.lookup "default" = none :=
  (default_verifier_selection dummySignRec testService 1000 testRequest
    (by decide) (by decide) (by decide) (by decide)).1

/-- C1 (code bug): the buffer handed to the ECDSA signing primitive is the
60-byte concatenation `"\x19Ethereum Signed Message:\n32" ‖ paymaster
hash` itself — it is never keccak256-hashed a second time, so it is not
the 32-byte digest the claim (and the standard personal-message
convention) requires. Because `Message::from_digest_slice` accepts only
32-byte input, every validated request then fails with `SigningError`,
for every possible signing primitive — contradicting the repository's own
`test_valid_sponsorship_request`, which asserts a successful signature on
exactly this input. -/
theorem signing_digest_not_rehashed :
    (create_paymaster_hash 1 (List.replicate 20 0) testOp 4600 0).map
      (fun pm => (create_eip191_message pm).length) = some 60 ∧
    (∀ signRec : SignRec,
      sign_sponsorship signRec testService 1000 testRequest =
        some (.error (.KeyManagerError .SigningError))) := by
  constructor
  · obtain ⟨pm, hpm, hl⟩ := create_paymaster_hash_some 1
      (List.replicate 20 0) testOp 4600 0 (by decide) (by decide)
    rw [hpm]
    simp [eip191_length pm hl]
  · intro signRec
    rfl

/-- C5 (code bug): on the repository's own test input — a request its
test suite asserts to succeed with a 65-byte signature and an 81-byte
`paymaster_data` — `sign_sponsorship` completes without panicking but
never returns a success, for every possible signing primitive: the
60-byte tagged message is rejected by the 32-byte digest contract of the
signer, so no successful call exists whose response lengths could be
observed. -/
theorem sign_sponsorship_never_succeeds :
    ∀ signRec : SignRec,
      (sign_sponsorship signRec testService 1000 testRequest).map
        isOkResult = some false :=
  fun _ => rfl

/-- Counterexample for C7: a user operation whose `sender` field is not
valid hexadecimal is not rejected with any encoding error — `decode_hex`
silently yields the empty byte string, packing succeeds, and the request
proceeds through hashing all the way to the signing step (the
`SignatureError` type has no encoding variant at all; the only failure on
this path is the unrelated `SigningError` of the digest bug). -/
theorem malformed_hex_not_rejected_cex :
    decode_hex "not-hex!" = [] ∧
    (pack_for_paymaster badHexOp).isSome = true ∧
    sign_sponsorship dummySignRec testService 1000 badHexRequest =
      some (.error (.KeyManagerError .SigningError)) :=
  ⟨by decide, by decide, rfl⟩

/-- C7 as amended: a malformed hex field does not fail the request;
`decode_hex` maps every string whose (`0x`-stripped) content is not valid
even-length hexadecimal to the empty byte string, because the
`hex::decode` error is discarded by `unwrap_or_default`. -/
theorem decode_hex_malformed_empty (s : String)
    (h : hexPairs (strip0x s.toList) = none) :
    decode_hex s = [] := by
  rw [decode_hex, h]
  rfl

/-- Witness for the amended C7. -/
theorem decode_hex_malformed_empty_witness : decode_hex "not-hex!" = [] :=
  decode_hex_malformed_empty "not-hex!" (by decide)

/-- Counterexample for C8: with the single configured verifier key
`"default"` bound to the malformed hex string `"zz"`, `KeyManager::new`
does not fail — it returns an empty key store — so startup proceeds and
the configured name `"default"` is absent from the store. -/
theorem key_manager_new_skips_invalid_cex :
    keyManagerNew [("default", "zz")] = [] ∧
    (keyManagerNew [("default", "zz")]).lookup "default" = none :=
  ⟨by decide, by decide⟩

/-- C8 as amended: `KeyManager::new` never fails; a configured entry is
present in the store exactly when its key string hex-decodes and parses
as a valid secp256k1 secret key — invalid entries are silently skipped
rather than aborting startup. -/
theorem key_manager_new_membership (cfg : List (String × String))
    (name : String) :
    ((keyManagerNew cfg).lookup name).isSome = true ↔
      ∃ p ∈ cfg, p.1 = name ∧
        ((hexDecode p.2).bind secretKeyOfSlice).isSome = true := by
  induction cfg with
  | nil => simp [keyManagerNew]
  | cons p rest ih =>
      rw [keyManagerNew_cons]
      cases hp : (hexDecode p.2).bind secretKeyOfSlice with
      | none =>
          simp only [Option.elim]
          rw [ih]
          constructor
          · rintro ⟨q, hq, hqn, hqs⟩
            exact ⟨q, List.mem_cons_of_mem p hq, hqn, hqs⟩
          · rintro ⟨q, hq, hqn, hqs⟩
            rcases List.mem_cons.mp hq with rfl | hq2
            · rw [hp] at hqs
              simp at hqs
            · exact ⟨q, hq2, hqn, hqs⟩
      | some sk =>
          simp only [Option.elim]
          by_cases hn : name = p.1
          · have hb : (name == p.1) = true := by simp [hn]
            constructor
            · intro _
              exact ⟨p, List.mem_cons_self p rest, hn.symm, by simp [hp]⟩
            · intro _
              simp [List.lookup, hb]
          · have hb : (name == p.1) = false := by simp [hn]
            rw [show List.lookup name ((p.1, sk) :: keyManagerNew rest) =
              List.lookup name (keyManagerNew rest) from by
                simp [List.lookup, hb]]
            rw [ih]
            constructor
            · rintro ⟨q, hq, hqn, hqs⟩
              exact ⟨q, List.mem_cons_of_mem p hq, hqn, hqs⟩
            · rintro ⟨q, hq, hqn, hqs⟩
              rcases List.mem_cons.mp hq with rfl | hq2
              · exact absurd hqn.symm hn
              · exact ⟨q, hq2, hqn, hqs⟩

end Paymaster
